import Mathlib

/-!
Verification of `scripts/morning_summary.py`, a single-run batch job that
fetches weather and news data, formats a plain-text report and delivers it
by email (or prints it to the console).

The embedding is shallow: every Python function becomes a Lean function.
JSON dictionaries become structures whose fields are `Option`-valued
(`none` models an absent key, so that `dict.get(k, default)` becomes
`Option.getD`); a Python exception that the code does not catch is an
`Except.error` carrying the exception text; outbound HTTP and SMTP traffic
is a parameter (an oracle value giving each call's outcome) together with
an explicit log of the calls made, so that "no network call happened" is
"the log is empty". JSON numbers are modelled as rationals, and string
case operations (`str.lower`, `str.title`) are modelled on the ASCII
range, which is the range Lean's `Char.toLower`/`Char.toUpper` act on.
-/

namespace MorningSummary

/-- Model of Python `str.lower()` (ASCII range). -/
def pylower (s : String) : String :=
  String.mk (s.data.map Char.toLower)

/-- Helper for `pytitle`: the Boolean argument records whether the previous
character was alphabetic (Python title-cases the first letter of each run
of cased characters and lower-cases the rest of the run). -/
def pytitleAux : Bool → List Char → List Char
  | _, [] => []
  | prev, c :: cs =>
    if c.isAlpha then
      (if prev then c.toLower else c.toUpper) :: pytitleAux true cs
    else
      c :: pytitleAux false cs

/-- Model of Python `str.title()` (ASCII range). -/
def pytitle (s : String) : String :=
  String.mk (pytitleAux false s.data)

/-- Whether the first list is an initial segment of the second. -/
def beginsWith : List Char → List Char → Bool
  | [], _ => true
  | _ :: _, [] => false
  | a :: as, b :: bs => a == b && beginsWith as bs

/-- Whether `needle` occurs contiguously inside the second list. -/
def hasSub (needle : List Char) : List Char → Bool
  | [] => beginsWith needle []
  | c :: cs => beginsWith needle (c :: cs) || hasSub needle cs

/-- Model of the Python test `needle in hay` on strings. -/
def pyIn (needle hay : String) : Bool :=
  hasSub needle.data hay.data

/-- Whether the first string is an initial segment of the second. -/
def beginsWithS (p s : String) : Bool :=
  beginsWith p.data s.data

/-- Number of (possibly overlapping) occurrences of `needle` in the list. -/
def countSubAux (needle : List Char) : List Char → Nat
  | [] => 0
  | c :: cs => (if beginsWith needle (c :: cs) then 1 else 0) + countSubAux needle cs

/-- Number of occurrences of `needle` inside `hay`. -/
def countSub (needle hay : String) : Nat :=
  countSubAux needle.data hay.data

/-- Truthiness of an optional string value, as Python evaluates
`dict.get("error")`: an absent key gives `None` (falsy) and an empty
string is falsy too. -/
def pyTruthy : Option String → Bool
  | none => false
  | some s => !(s == "")

/-- The `"=" * 50` banner used throughout the script. -/
def bar50 : String :=
  String.mk (List.replicate 50 '=')

/-- Rendering of a numeric JSON field that may be absent: Python formats
the number itself, or the default string `"N/A"`, into the f-string. -/
def showOptNum : Option ℚ → String
  | some q => toString q
  | none => "N/A"

/-- Two-digit, zero-padded decimal rendering, as in `strftime`. -/
def pad2 (n : Nat) : String :=
  if n < 10 then "0" ++ toString n else toString n

/-- Model of `datetime.fromtimestamp(t).strftime("%I:%M %p")`. The local
timezone offset of the host is abstracted to a fixed (zero) offset; the
12-hour clock and AM/PM rendering follow `strftime`. -/
def strftime_hm (t : Nat) : String :=
  let h24 := t / 3600 % 24
  let m := t / 60 % 60
  let h12 := if h24 % 12 == 0 then 12 else h24 % 12
  pad2 h12 ++ ":" ++ pad2 m ++ " " ++ (if h24 < 12 then "AM" else "PM")

/-- The `main` sub-dictionary of an OpenWeatherMap current-conditions
payload, as read by the script. -/
structure MainBlock where
  temp : Option ℚ := none
  feels_like : Option ℚ := none
  humidity : Option ℚ := none
deriving Repr, DecidableEq

/-- One entry of a `weather` array: only `description` is read. -/
structure WeatherEntry where
  description : Option String := none
deriving Repr, DecidableEq

/-- The `wind` sub-dictionary: only `speed` is read. -/
structure WindBlock where
  speed : Option ℚ := none
deriving Repr, DecidableEq

/-- The current-conditions JSON payload, restricted to the keys the script
reads. `some c` models a truthy (non-empty) dictionary, `none` an absent
key or the empty dictionary (both falsy in `if not current`). -/
structure CurrentPayload where
  name : Option String := none
  main : Option MainBlock := none
  weather : Option (List WeatherEntry) := none
  wind : Option WindBlock := none
deriving Repr, DecidableEq

/-- The `main` sub-dictionary of one forecast entry: only `temp` is read. -/
structure ForecastMain where
  temp : Option ℚ := none
deriving Repr, DecidableEq

/-- One entry of the forecast `list` array. The script indexes these keys
directly (`item["dt"]`, `item["main"]["temp"]`,
`item["weather"][0]["description"]`), so an absent key raises. -/
structure ForecastItem where
  dt : Option Nat := none
  main : Option ForecastMain := none
  weather : Option (List WeatherEntry) := none
deriving Repr, DecidableEq

/-- The forecast JSON payload: only the `list` key is read. -/
structure ForecastDict where
  list : Option (List ForecastItem) := none
deriving Repr, DecidableEq

/-- Result dictionary of `get_weather_data`: the error dictionary has
neither payload key, the success dictionary carries both payloads and an
explicit `error = None`. `Option.getD`-style reads in the formatter treat
the absent keys of the error dictionary as `none`. -/
structure WeatherResult where
  current : Option CurrentPayload := none
  forecast : Option ForecastDict := none
  error : Option String := none
deriving Repr, DecidableEq

/-- The `source` sub-dictionary of a news article: only `name` is read. -/
structure SourceBlock where
  name : Option String := none
deriving Repr, DecidableEq

/-- One news article, restricted to the keys the script reads. -/
structure Article where
  title : Option String := none
  source : Option SourceBlock := none
  description : Option String := none
  url : Option String := none
deriving Repr, DecidableEq

/-- Result dictionary of `get_news_data`: either the parsed response body
(whose `articles` key the formatter reads) or an error dictionary. -/
structure NewsResult where
  articles : Option (List Article) := none
  error : Option String := none
deriving Repr, DecidableEq

/-- Outcome of the two outbound HTTP calls of `get_weather_data`: what
`response.json()` would give for each URL, or the text of the
`requests.exceptions.RequestException` the call raises (connection
failure, timeout, or `raise_for_status` on a non-2xx response). -/
structure WeatherNet where
  currentResp : Except String CurrentPayload
  forecastResp : Except String ForecastDict

/-- URL of the current-conditions request built by `get_weather_data`. -/
def weather_current_url (location api_key : String) : String :=
  "https://api.openweathermap.org/data/2.5/weather?q=" ++ location ++
    "&appid=" ++ api_key ++ "&units=imperial"

/-- URL of the forecast request built by `get_weather_data`. -/
def weather_forecast_url (location api_key : String) : String :=
  "https://api.openweathermap.org/data/2.5/forecast?q=" ++ location ++
    "&appid=" ++ api_key ++ "&units=imperial"

/-- Embedding of `get_weather_data`. Besides the result dictionary it
returns the list of URLs actually requested, in order; an empty list means
the HTTP code path was never reached. -/
def get_weather_data (location api_key : String) (net : WeatherNet) :
    WeatherResult × List String :=
  if api_key == "" then
    ({ error := some "No Weather API key provided. Sign up at https://openweathermap.org/api" },
     [])
  else
    match net.currentResp with
    | Except.error e =>
      ({ error := some ("Weather API error: " ++ e) },
       [weather_current_url location api_key])
    | Except.ok current =>
      match net.forecastResp with
      | Except.error e =>
        ({ error := some ("Weather API error: " ++ e) },
         [weather_current_url location api_key, weather_forecast_url location api_key])
      | Except.ok forecast =>
        ({ current := some current, forecast := some forecast, error := none },
         [weather_current_url location api_key, weather_forecast_url location api_key])

/-- URL of the headlines request of `get_news_data`, with the fixed query
parameters (`country=us`, `category=politics`, `pageSize=5`) that
`requests` appends from the `params` dictionary. -/
def news_url (api_key : String) : String :=
  "https://newsapi.org/v2/top-headlines?apiKey=" ++ api_key ++
    "&country=us&category=politics&pageSize=5"

/-- Embedding of `get_news_data`: the parsed response body is returned as
the result dictionary itself. The second component logs the URLs
requested. -/
def get_news_data (api_key : String) (net : Except String NewsResult) :
    NewsResult × List String :=
  if api_key == "" then
    ({ error := some "No News API key provided. Sign up at https://newsapi.org/" }, [])
  else
    match net with
    | Except.ok payload => (payload, [news_url api_key])
    | Except.error e => ({ error := some ("News API error: " ++ e) }, [news_url api_key])

/-- Embedding of
`current.get("weather", [{}])[0].get("description", "N/A").title()`.
An absent `weather` key falls back to `[{}]`, whose element yields the
default description; a present but empty array makes `[0]` raise
`IndexError`. -/
def getDescription (c : CurrentPayload) : Except String String :=
  match c.weather with
  | none => Except.ok (pytitle "N/A")
  | some [] => Except.error "IndexError: list index out of range"
  | some (e :: _) => Except.ok (pytitle (e.description.getD "N/A"))

/-- Advisory text of the rain/snow branch. -/
def wet_warning : String :=
  "⚠️ Wet/slippery conditions expected. Drive carefully!\n"

/-- Advisory text of the fog/mist branch. -/
def visibility_warning : String :=
  "⚠️ Reduced visibility. Use caution while driving!\n"

/-- Advisory text of the high-wind branch. -/
def wind_warning : String :=
  "⚠️ High winds. Be careful with high-profile vehicles!\n"

/-- Advisory text of the default branch. -/
def normal_message : String :=
  "✅ Normal driving conditions expected.\n"

/-- Embedding of the road-conditions `if`/`elif` chain of
`format_weather_summary`. When none of the keyword branches matches and
the `speed` key was absent, `wind_speed` holds the string `"N/A"` and
`wind_speed > 25` raises `TypeError`. -/
def road_advisory (description : String) (wind : Option ℚ) : Except String String :=
  if pyIn "rain" (pylower description) || pyIn "snow" (pylower description) then
    Except.ok wet_warning
  else if pyIn "fog" (pylower description) || pyIn "mist" (pylower description) then
    Except.ok visibility_warning
  else
    match wind with
    | some w => Except.ok (if 25 < w then wind_warning else normal_message)
    | none => Except.error "TypeError: '>' not supported between instances of 'str' and 'int'"

/-- The current-conditions lines of the weather summary (location,
temperature, conditions, humidity, wind). -/
def current_lines (c : CurrentPayload) (description : String) : String :=
  "Location: " ++ c.name.getD "Unknown" ++ "\n" ++
  "Current Temperature: " ++ showOptNum (c.main.bind MainBlock.temp) ++
    "°F (feels like " ++ showOptNum (c.main.bind MainBlock.feels_like) ++ "°F)\n" ++
  "Conditions: " ++ description ++ "\n" ++
  "Humidity: " ++ showOptNum (c.main.bind MainBlock.humidity) ++ "%\n" ++
  "Wind Speed: " ++ showOptNum (c.wind.bind WindBlock.speed) ++ " mph\n\n"

/-- One rendered forecast line, `f"  {time}: {temp}°F - {desc}\n"`. -/
def forecast_line_of (t : Nat) (q : ℚ) (d : String) : String :=
  "  " ++ strftime_hm t ++ ": " ++ toString q ++ "°F - " ++ pytitle d ++ "\n"

/-- Rendering of one forecast entry; the direct key and index accesses of
the loop body raise when a key is absent or the array empty. -/
def render_forecast_item (it : ForecastItem) : Except String String :=
  match it.dt with
  | none => Except.error "KeyError: 'dt'"
  | some t =>
    match it.main with
    | none => Except.error "KeyError: 'main'"
    | some m =>
      match m.temp with
      | none => Except.error "KeyError: 'temp'"
      | some q =>
        match it.weather with
        | none => Except.error "KeyError: 'weather'"
        | some [] => Except.error "IndexError: list index out of range"
        | some (e :: _) =>
          match e.description with
          | none => Except.error "KeyError: 'description'"
          | some d => Except.ok (forecast_line_of t q d)

/-- Rendering of a list of forecast entries, in order; the first entry
that raises aborts the loop. -/
def forecast_lines : List ForecastItem → Except String (List String)
  | [] => Except.ok []
  | it :: rest =>
    match render_forecast_item it with
    | Except.error e => Except.error e
    | Except.ok line =>
      match forecast_lines rest with
      | Except.error e => Except.error e
      | Except.ok lines => Except.ok (line :: lines)

/-- The forecast block of the weather summary. The guard
`if forecast and "list" in forecast` passes exactly when the `forecast`
key is present and its dictionary has a `list` key (which also makes the
dictionary truthy); `forecast["list"][:3]` keeps at most three entries. -/
def forecast_section (f : Option ForecastDict) : Except String String :=
  match f with
  | some fd =>
    match fd.list with
    | some items =>
      match forecast_lines (items.take 3) with
      | Except.error e => Except.error e
      | Except.ok lines =>
        Except.ok ("📅 TODAY'S FORECAST:\n" ++ String.join lines)
    | none => Except.ok ""
  | none => Except.ok ""

/-- Embedding of `format_weather_summary`. An `Except.error` value models
an exception raised while formatting (the function has no handler, so it
would propagate out of `main`). -/
def format_weather_summary (wd : WeatherResult) : Except String String :=
  if pyTruthy wd.error then
    Except.ok ("⚠️ Weather Update:\n" ++ wd.error.getD "" ++ "\n\n")
  else
    match wd.current with
    | none => Except.ok "⚠️ Weather Update:\nNo weather data available\n\n"
    | some c =>
      match getDescription c with
      | Except.error e => Except.error e
      | Except.ok description =>
        match road_advisory description (c.wind.bind WindBlock.speed) with
        | Except.error e => Except.error e
        | Except.ok adv =>
          match forecast_section wd.forecast with
          | Except.error e => Except.error e
          | Except.ok fs =>
            Except.ok ("🌤️ WEATHER REPORT\n" ++ bar50 ++ "\n\n" ++
              current_lines c description ++
              "🚗 ROAD CONDITIONS:\n" ++ adv ++ "\n" ++ fs ++ "\n")

/-- One numbered headline block of the news summary. -/
def render_article (i : Nat) (a : Article) : String :=
  toString i ++ ". " ++ a.title.getD "No title" ++ "\n" ++
  "   Source: " ++ (a.source.bind SourceBlock.name).getD "Unknown source" ++ "\n" ++
  "   " ++ a.description.getD "No description available" ++ "\n" ++
  (if a.url.getD "" == "" then "" else "   Read more: " ++ a.url.getD "" ++ "\n") ++
  "\n"

/-- The numbered headline blocks produced by
`for i, article in enumerate(articles, 1)`, starting the count at `i`. -/
def news_blocks_from (i : Nat) : List Article → List String
  | [] => []
  | a :: rest => render_article i a :: news_blocks_from (i + 1) rest

/-- The numbered headline blocks of the news summary, numbered from 1. -/
def news_blocks (articles : List Article) : List String :=
  news_blocks_from 1 articles

/-- Embedding of `format_news_summary` (total: every dictionary access
uses a default). -/
def format_news_summary (nd : NewsResult) : String :=
  if pyTruthy nd.error then
    "⚠️ News Update:\n" ++ nd.error.getD "" ++ "\n\n"
  else
    let articles := nd.articles.getD []
    if articles.isEmpty then
      "⚠️ News Update:\nNo political news available\n\n"
    else
      "📰 POLITICAL HIGHLIGHTS\n" ++ bar50 ++ "\n\n" ++ String.join (news_blocks articles)

/-- Outcome of each step of the SMTP session that `send_email` runs inside
its `try` block (connect, STARTTLS, login, send, quit): `Except.error`
models the step raising. -/
structure SmtpOracle where
  connect : Except String Unit
  starttls : Except String Unit
  login : Except String Unit
  send_message : Except String Unit
  quitStep : Except String Unit

/-- The SMTP send sequence of `send_email`, stopping at the first step
that raises. -/
def run_smtp (o : SmtpOracle) : Except String Unit :=
  match o.connect with
  | Except.error e => Except.error e
  | Except.ok _ =>
    match o.starttls with
    | Except.error e => Except.error e
    | Except.ok _ =>
      match o.login with
      | Except.error e => Except.error e
      | Except.ok _ =>
        match o.send_message with
        | Except.error e => Except.error e
        | Except.ok _ => o.quitStep

/-- Observable outcome of `send_email`: its Boolean return value, the
strings it printed to the console (the arguments of its `print` calls, in
order), and whether the SMTP code path was reached. -/
structure SendOutcome where
  sent : Bool
  console : List String
  smtp_used : Bool
deriving Repr, DecidableEq

/-- Embedding of `send_email`. `if not all([sender, password, recipient])`
passes exactly when one of the three strings is empty. -/
def send_email (_subject body sender password recipient : String)
    (o : SmtpOracle) : SendOutcome :=
  if sender == "" || password == "" || recipient == "" then
    { sent := false,
      console := ["❌ Email credentials not configured. Printing summary instead:\n", body],
      smtp_used := false }
  else
    match run_smtp o with
    | Except.ok _ =>
      { sent := true,
        console := ["✅ Email sent successfully to " ++ recipient],
        smtp_used := true }
    | Except.error e =>
      { sent := false,
        console := ["❌ Failed to send email: " ++ e,
                    "\nSummary that would have been sent:\n", body],
        smtp_used := true }

/-- The report template of `main` (a triple-quoted f-string beginning with
a newline), as a function of the two formatted sections and the date
string. -/
def assemble_summary (weather_text news_text today : String) : String :=
  "\n" ++ bar50 ++ "\nDAILY MORNING SUMMARY\n" ++ today ++ "\n" ++ bar50 ++ "\n\n" ++
  weather_text ++ "\n\n" ++ news_text ++ "\n\n" ++ bar50 ++
  "\nHave a great day!\n" ++ bar50 ++ "\n"

/-- The configuration `main` reads from the environment, with the
defaults of each `os.getenv` call already applied (absent variables give
the empty string; `LOCATION` defaults to `"New York"`). -/
structure Env where
  weather_api_key : String := ""
  news_api_key : String := ""
  email_sender : String := ""
  email_password : String := ""
  email_recipient : String := ""
  location : String := "New York"

/-- Embedding of `main`. The value of `datetime.now().strftime(...)` is
the `today` parameter. `Except.ok b` models the program completing
normally (process exit code 0) with `b` the return value of `send_email`;
`Except.error e` models an exception propagating out of `main` uncaught
(the interpreter prints a traceback and exits with a non-zero code). -/
def main (env : Env) (wnet : WeatherNet) (nnet : Except String NewsResult)
    (smtp : SmtpOracle) (today : String) : Except String Bool :=
  let weather_data := (get_weather_data env.location env.weather_api_key wnet).1
  let news_data := (get_news_data env.news_api_key nnet).1
  match format_weather_summary weather_data with
  | Except.error e => Except.error e
  | Except.ok ws =>
    let summary := assemble_summary ws (format_news_summary news_data) today
    let outcome := send_email ("Daily Morning Summary - " ++ today) summary
      env.email_sender env.email_password env.email_recipient smtp
    Except.ok outcome.sent

/-- Well-formedness of one forecast entry: every key the loop body indexes
directly is present, and the `weather` array is non-empty. -/
def ItemWF (it : ForecastItem) : Prop :=
  (∃ t, it.dt = some t) ∧ (∃ m q, it.main = some m ∧ m.temp = some q) ∧
  (∃ e rest d, it.weather = some (e :: rest) ∧ e.description = some d)

/-- The string `s` is the rendering of the entry `it`: its timestamp as a
time of day, its temperature, and its condition description. -/
def RenderedLine (it : ForecastItem) (s : String) : Prop :=
  ∃ t q d, it.dt = some t ∧ (∃ m, it.main = some m ∧ m.temp = some q) ∧
    (∃ e rest, it.weather = some (e :: rest) ∧ e.description = some d) ∧
    s = forecast_line_of t q d

/-- The weather summary `out` embeds exactly one advisory line after the
road-conditions header, chosen by the source's priority order on the
(lower-cased) condition description, with wind speed consulted only when
no keyword matched. -/
def advisory_emission (wd : WeatherResult) (c : CurrentPayload) (out : String) : Prop :=
  ∃ d adv fs, getDescription c = Except.ok d ∧
    forecast_section wd.forecast = Except.ok fs ∧
    out = "🌤️ WEATHER REPORT\n" ++ bar50 ++ "\n\n" ++ current_lines c d ++
      "🚗 ROAD CONDITIONS:\n" ++ adv ++ "\n" ++ fs ++ "\n" ∧
    ((pyIn "rain" (pylower d) || pyIn "snow" (pylower d)) = true → adv = wet_warning) ∧
    ((pyIn "rain" (pylower d) || pyIn "snow" (pylower d)) = false →
      (pyIn "fog" (pylower d) || pyIn "mist" (pylower d)) = true → adv = visibility_warning) ∧
    ((pyIn "rain" (pylower d) || pyIn "snow" (pylower d)) = false →
      (pyIn "fog" (pylower d) || pyIn "mist" (pylower d)) = false →
      ∃ w, c.wind.bind WindBlock.speed = some w ∧
        adv = if 25 < w then wind_warning else normal_message)

/-- The news formatter's output for an error-free result with article list
`articles`: the empty list gives the fixed no-news block, and otherwise
one numbered block per article, numbered from 1 in input order, each
beginning with its number and the article's title. -/
def news_rendering_spec (nd : NewsResult) (articles : List Article) : Prop :=
  (articles = [] →
    format_news_summary nd = "⚠️ News Update:\nNo political news available\n\n") ∧
  (articles ≠ [] →
    format_news_summary nd =
      "📰 POLITICAL HIGHLIGHTS\n" ++ bar50 ++ "\n\n" ++ String.join (news_blocks articles) ∧
    (news_blocks articles).length = articles.length ∧
    ∀ j (h : j < (news_blocks articles).length) (h2 : j < articles.length),
      beginsWithS (toString (j + 1) ++ ". " ++ ((articles.get ⟨j, h2⟩).title.getD "No title"))
        ((news_blocks articles).get ⟨j, h⟩) = true)

/-- The weather formatter renders exactly `min 3 n` forecast lines from an
entry list of length `n`, in list order, each line showing that entry's
time of day, temperature and condition description, and the rendered
lines appear joined at the end of the successful output. -/
def forecast_rendering_spec (wd : WeatherResult) (items : List ForecastItem) : Prop :=
  ∃ lines, forecast_lines (items.take 3) = Except.ok lines ∧
    lines.length = min 3 items.length ∧
    (∀ j (h : j < (items.take 3).length) (h2 : j < lines.length),
      RenderedLine ((items.take 3).get ⟨j, h⟩) (lines.get ⟨j, h2⟩)) ∧
    ∃ pre, format_weather_summary wd =
      Except.ok (pre ++ ("📅 TODAY'S FORECAST:\n" ++ (String.join lines ++ "\n")))

/-- The weather fetcher's result, for a non-empty key, is exactly one of
two shapes: a full success carrying both JSON payloads with `error` unset,
or an error dictionary carrying the message of the exception that the
first failing call raised. -/
def weather_outcome_spec (location api_key : String) (net : WeatherNet) : Prop :=
  (∃ c f, net.currentResp = Except.ok c ∧ net.forecastResp = Except.ok f ∧
    (get_weather_data location api_key net).1 =
      { current := some c, forecast := some f, error := none }) ∨
  (∃ e, (get_weather_data location api_key net).1 =
      { current := none, forecast := none, error := some ("Weather API error: " ++ e) } ∧
    (net.currentResp = Except.error e ∨
      (∃ c, net.currentResp = Except.ok c ∧ net.forecastResp = Except.error e)))

/-- First component of an `Except`-valued formatter run, for naming a
concrete successful output. -/
def okOr (x : Except String String) : String :=
  match x with
  | Except.ok s => s
  | Except.error e => e

/-- An SMTP oracle on which every step of the send sequence succeeds. -/
def smtp_ok : SmtpOracle :=
  { connect := Except.ok (), starttls := Except.ok (), login := Except.ok (),
    send_message := Except.ok (), quitStep := Except.ok () }

/-- A current payload whose `wind` key is absent and whose description
matches no advisory keyword: the road-conditions chain reaches
`wind_speed > 25` with `wind_speed = "N/A"`. -/
def c_no_wind : CurrentPayload :=
  { weather := some [{ description := some "clear sky" }] }

/-- A weather result with a present current payload but no `wind` key. -/
def wd_no_wind : WeatherResult :=
  { current := some c_no_wind }

/-- A network oracle whose two weather calls both return 200 with a JSON
body lacking the `wind` key: a reachable fetcher outcome. -/
def wnet_crash : WeatherNet :=
  { currentResp := Except.ok c_no_wind, forecastResp := Except.ok {} }

/-- A configuration with only the weather key set. -/
def env_crash : Env :=
  { weather_api_key := "k" }

/-- A current payload with a rain description and a 30 mph wind. -/
def c_c1 : CurrentPayload :=
  { weather := some [{ description := some "light rain" }],
    wind := some { speed := some 30 } }

/-- A weather result around `c_c1`. -/
def wd_c1 : WeatherResult :=
  { current := some c_c1 }

/-- The successful output of the formatter on `wd_c1`. -/
def out_c1 : String :=
  okOr (format_weather_summary wd_c1)

/-- Six articles with no fields set: more than the five the claim allows. -/
def six_articles : List Article :=
  List.replicate 6 {}

/-- An error-free news result carrying six articles. -/
def news_six : NewsResult :=
  { articles := some six_articles }

/-- A single concrete article. -/
def one_article : List Article :=
  [{ title := some "Budget vote scheduled" }]

/-- An error-free news result carrying one article. -/
def news_one : NewsResult :=
  { articles := some one_article }

/-- A well-formed forecast entry. -/
def wf_item : ForecastItem :=
  { dt := some 3600, main := some { temp := some 54 },
    weather := some [{ description := some "light rain" }] }

/-- A second well-formed forecast entry. -/
def wf_item2 : ForecastItem :=
  { dt := some 14400, main := some { temp := some 57 },
    weather := some [{ description := some "scattered clouds" }] }

/-- An error-free weather result whose forecast list has one entry but
whose current payload is absent. -/
def wd_forecast_only : WeatherResult :=
  { forecast := some { list := some [wf_item] } }

/-- A current payload with wind speed present and a rain description. -/
def c_c7 : CurrentPayload :=
  { weather := some [{ description := some "light rain" }],
    wind := some { speed := some 5 } }

/-- The two-entry forecast list of the forecast-rendering witness. -/
def items_c7 : List ForecastItem :=
  [wf_item, wf_item2]

/-- A fully well-formed weather result with a two-entry forecast. -/
def wd_c7 : WeatherResult :=
  { current := some c_c7, forecast := some { list := some items_c7 } }

/-- A weather dictionary holding both an error string and payload data. -/
def wd_err : WeatherResult :=
  { current := some { name := some "New York" }, forecast := some {},
    error := some "Weather API error: timeout" }

/-- A news dictionary holding both an error string and articles. -/
def nd_err : NewsResult :=
  { articles := some [{ title := some "headline" }],
    error := some "News API error: timeout" }

/-- A network oracle on which both weather calls succeed. -/
def net_ok : WeatherNet :=
  { currentResp := Except.ok {}, forecastResp := Except.ok {} }

/-- An initial segment stays an initial segment of any extension. -/
theorem beginsWith_self_append (p q : List Char) : beginsWith p (p ++ q) = true := by
  induction p with
  | nil => rfl
  | cons a as ih => simp [beginsWith, ih]

/-- A string built as `p ++ r` begins with `p`. -/
theorem beginsWithS_of_eq_append (p r s : String) (h : s = p ++ r) :
    beginsWithS p s = true := by
  subst h
  unfold beginsWithS
  rw [String.data_append]
  exact beginsWith_self_append p.data r.data

/-- The numbered block of article `a` begins with its number and title. -/
theorem render_article_beginsWith (j : Nat) (a : Article) :
    beginsWithS (toString j ++ ". " ++ a.title.getD "No title")
      (render_article j a) = true := by
  apply beginsWithS_of_eq_append _
    ("\n" ++ "   Source: " ++ (a.source.bind SourceBlock.name).getD "Unknown source" ++ "\n" ++
      "   " ++ a.description.getD "No description available" ++ "\n" ++
      (if a.url.getD "" == "" then "" else "   Read more: " ++ a.url.getD "" ++ "\n") ++ "\n")
  simp [render_article, String.append_assoc]

/-- Length of the numbered block list. -/
theorem news_blocks_from_length (l : List Article) :
    ∀ i, (news_blocks_from i l).length = l.length := by
  induction l with
  | nil => intro i; rfl
  | cons a rest ih => intro i; simp [news_blocks_from, ih]

/-- The `j`-th numbered block is the rendering of the `j`-th article with
number `i + j`. -/
theorem news_blocks_from_get (l : List Article) :
    ∀ i j (h : j < (news_blocks_from i l).length) (h2 : j < l.length),
      (news_blocks_from i l).get ⟨j, h⟩ = render_article (i + j) (l.get ⟨j, h2⟩) := by
  induction l with
  | nil => intro i j h h2; exact absurd h2 (by simp)
  | cons a rest ih =>
    intro i j h h2
    match j with
    | 0 => simp [news_blocks_from]
    | Nat.succ j2 =>
      have h2x : j2 < rest.length := by simpa using h2
      have hx : j2 < (news_blocks_from (i + 1) rest).length := by
        rw [news_blocks_from_length]; exact h2x
      simpa [news_blocks_from, Nat.add_assoc, Nat.add_comm 1 j2] using
        ih (i + 1) j2 hx h2x

/-- A well-formed entry renders to a line satisfying `RenderedLine`. -/
theorem render_ok_of_wf (it : ForecastItem) (hwf : ItemWF it) :
    ∃ s, render_forecast_item it = Except.ok s ∧ RenderedLine it s := by
  obtain ⟨⟨t, ht⟩, ⟨m, q, hm, hq⟩, ⟨e, rest, d, hw, hd⟩⟩ := hwf
  refine ⟨forecast_line_of t q d, ?_, t, q, d, ht, ⟨m, hm, hq⟩, ⟨e, rest, hw, hd⟩, rfl⟩
  simp [render_forecast_item, ht, hm, hq, hw, hd]

/-- A list of well-formed entries renders without an exception, one line
per entry, in order. -/
theorem forecast_lines_ok (l : List ForecastItem) (hwf : ∀ it ∈ l, ItemWF it) :
    ∃ lines, forecast_lines l = Except.ok lines ∧ lines.length = l.length ∧
      ∀ j (h : j < l.length) (h2 : j < lines.length),
        RenderedLine (l.get ⟨j, h⟩) (lines.get ⟨j, h2⟩) := by
  induction l with
  | nil => exact ⟨[], rfl, rfl, by intro j h; exact absurd h (by simp)⟩
  | cons it rest ih =>
    obtain ⟨s, hs, hr⟩ := render_ok_of_wf it (hwf it (by simp))
    obtain ⟨lines, hl, hlen, hget⟩ := ih (fun x hx => hwf x (by simp [hx]))
    refine ⟨s :: lines, ?_, by simp [hlen], ?_⟩
    · simp [forecast_lines, hs, hl]
    · intro j h h2
      match j with
      | 0 => simpa using hr
      | Nat.succ j2 =>
        have ha : j2 < rest.length := by simpa using h
        have hb : j2 < lines.length := by simpa using h2
        simpa using hget j2 ha hb

/-- C2: with an empty API key, each fetcher returns an error result naming
the missing credential and the HTTP code path is never reached (the
request log is empty), for every location and every network behaviour. -/
theorem fetchers_error_without_network_on_empty_key :
    ∀ (location : String) (wnet : WeatherNet) (nnet : Except String NewsResult),
      get_weather_data location "" wnet =
        ({ current := none, forecast := none,
           error := some "No Weather API key provided. Sign up at https://openweathermap.org/api" },
         []) ∧
      get_news_data "" nnet =
        ({ articles := none,
           error := some "No News API key provided. Sign up at https://newsapi.org/" },
         []) :=
  fun _ _ _ => ⟨rfl, rfl⟩

/-- C8: report assembly is deterministic: two runs with equal formatter
outputs and equal date strings produce byte-identical report text. -/
theorem assemble_summary_deterministic :
    ∀ (w n d w2 n2 d2 : String), w = w2 → n = n2 → d = d2 →
      assemble_summary w n d = assemble_summary w2 n2 d2 := by
  intro w n d w2 n2 d2 h1 h2 h3
  subst h1; subst h2; subst h3
  rfl

/-- Witness for the determinism of report assembly at concrete inputs. -/
theorem assemble_summary_deterministic_witness :
    ("W" : String) = "W" ∧ ("N" : String) = "N" ∧ ("D" : String) = "D" ∧
      assemble_summary "W" "N" "D" = assemble_summary "W" "N" "D" :=
  ⟨rfl, rfl, rfl, assemble_summary_deterministic "W" "N" "D" "W" "N" "D" rfl rfl rfl⟩

/-- C4: if any of sender, password or recipient is empty, `send_email`
skips the SMTP code path, prints the credentials message and then the
body verbatim, and returns `False`. -/
theorem send_email_console_fallback :
    ∀ (subject body sender password recipient : String) (o : SmtpOracle),
      sender = "" ∨ password = "" ∨ recipient = "" →
      send_email subject body sender password recipient o =
        { sent := false,
          console := ["❌ Email credentials not configured. Printing summary instead:\n", body],
          smtp_used := false } := by
  intro subject body sender password recipient o h
  rcases h with h | h | h <;> subst h <;> simp [send_email]

/-- Witness for the console fallback at a concrete empty sender. -/
theorem send_email_console_fallback_witness :
    (("" : String) = "" ∨ ("p" : String) = "" ∨ ("r" : String) = "") ∧
      send_email "Daily Morning Summary" "REPORT BODY" "" "p" "r" smtp_ok =
        { sent := false,
          console := ["❌ Email credentials not configured. Printing summary instead:\n",
                      "REPORT BODY"],
          smtp_used := false } :=
  ⟨Or.inl rfl,
    send_email_console_fallback "Daily Morning Summary" "REPORT BODY" "" "p" "r" smtp_ok
      (Or.inl rfl)⟩

/-- C9: in both formatters a non-empty error string takes precedence over
any payload data also present: the output is the short error block. -/
theorem formatters_error_field_precedence :
    ∀ (wd : WeatherResult) (nd : NewsResult) (e e2 : String),
      wd.error = some e → e ≠ "" → nd.error = some e2 → e2 ≠ "" →
      format_weather_summary wd = Except.ok ("⚠️ Weather Update:\n" ++ e ++ "\n\n") ∧
      format_news_summary nd = "⚠️ News Update:\n" ++ e2 ++ "\n\n" := by
  intro wd nd e e2 hw he hn he2
  constructor
  · simp [format_weather_summary, hw, pyTruthy, he]
  · simp [format_news_summary, hn, pyTruthy, he2]

/-- Witness for error-field precedence on dictionaries that carry both an
error string and payload data. -/
theorem formatters_error_field_precedence_witness :
    wd_err.error = some "Weather API error: timeout" ∧
    ("Weather API error: timeout" : String) ≠ "" ∧
    nd_err.error = some "News API error: timeout" ∧
    ("News API error: timeout" : String) ≠ "" ∧
    (format_weather_summary wd_err =
        Except.ok ("⚠️ Weather Update:\n" ++ "Weather API error: timeout" ++ "\n\n") ∧
      format_news_summary nd_err = "⚠️ News Update:\n" ++ "News API error: timeout" ++ "\n\n") :=
  ⟨rfl, by decide, rfl, by decide,
    formatters_error_field_precedence wd_err nd_err
      "Weather API error: timeout" "News API error: timeout" rfl (by decide) rfl (by decide)⟩

/-- C10: `send_email` returns `True` exactly when the credentials are all
non-empty and the SMTP sequence raised no exception; when the sequence
raises, the body is printed to the console. -/
theorem send_email_true_iff_smtp_ok :
    ∀ (subject body sender password recipient : String) (o : SmtpOracle),
      ((send_email subject body sender password recipient o).sent = true ↔
        (sender ≠ "" ∧ password ≠ "" ∧ recipient ≠ "" ∧ run_smtp o = Except.ok ())) ∧
      (∀ e, run_smtp o = Except.error e →
        body ∈ (send_email subject body sender password recipient o).console) := by
  intro subject body sender password recipient o
  by_cases h : (sender == "" || password == "" || recipient == "") = true
  · have h2 : sender = "" ∨ password = "" ∨ recipient = "" := by
      simpa [or_assoc] using h
    constructor
    · simp only [send_email, h, if_true]
      rcases h2 with h3 | h3 | h3 <;> simp [h3]
    · intro e _
      simp [send_email, h]
  · have hcond : (sender == "" || password == "" || recipient == "") = false := by
      simpa using h
    have hs : sender ≠ "" ∧ password ≠ "" ∧ recipient ≠ "" := by
      simpa [and_assoc] using h
    cases hr : run_smtp o with
    | ok u =>
      cases u
      constructor
      · simp [send_email, hcond, hr, hs.1, hs.2.1, hs.2.2]
      · intro e he
        exact absurd he (by simp)
    | error e2 =>
      constructor
      · simp [send_email, hcond, hr]
      · intro e _
        simp [send_email, hcond, hr]

/-- Witness for the `send_email` return-value characterisation at a
concrete call. -/
theorem send_email_true_iff_smtp_ok_witness :
    ((send_email "s" "B" "a" "p" "r" smtp_ok).sent = true ↔
      (("a" : String) ≠ "" ∧ ("p" : String) ≠ "" ∧ ("r" : String) ≠ "" ∧
        run_smtp smtp_ok = Except.ok ())) ∧
    (∀ e, run_smtp smtp_ok = Except.error e →
      "B" ∈ (send_email "s" "B" "a" "p" "r" smtp_ok).console) :=
  send_email_true_iff_smtp_ok "s" "B" "a" "p" "r" smtp_ok

/-- C5: the program does not tolerate every reachable payload shape: on a
200 response whose current payload lacks the `wind` key (and matches no
keyword), the road-conditions comparison raises `TypeError`, no handler
catches it, and `main` terminates with an uncaught exception instead of
completing with exit code 0. -/
theorem main_crashes_on_missing_wind_key :
    main env_crash wnet_crash (Except.error "news service down") smtp_ok
        "Monday, January 01, 2026" =
      Except.error "TypeError: '>' not supported between instances of 'str' and 'int'" :=
  rfl

/-- C6: for a non-empty key the weather fetcher's result is two-valued:
full success with both payloads and no error, or an error result carrying
the failing call's exception message; no partial success exists. -/
theorem get_weather_data_two_valued :
    ∀ (location api_key : String) (net : WeatherNet), api_key ≠ "" →
      weather_outcome_spec location api_key net := by
  intro location api_key net hk
  have hkb : (api_key == "") = false := by simpa using hk
  unfold weather_outcome_spec
  cases hc : net.currentResp with
  | error e =>
    exact Or.inr ⟨e, by simp [get_weather_data, hkb, hc], Or.inl rfl⟩
  | ok c =>
    cases hf : net.forecastResp with
    | error e =>
      exact Or.inr ⟨e, by simp [get_weather_data, hkb, hc, hf], Or.inr ⟨c, rfl, rfl⟩⟩
    | ok f =>
      exact Or.inl ⟨c, f, rfl, rfl, by simp [get_weather_data, hkb, hc, hf]⟩

/-- Witness for the two-valued fetcher outcome at a concrete successful
network. -/
theorem get_weather_data_two_valued_witness :
    ("k" : String) ≠ "" ∧ weather_outcome_spec "New York" "k" net_ok :=
  ⟨by decide, get_weather_data_two_valued "New York" "k" net_ok (by decide)⟩

/-- C3 (amended): for an error-free news result the formatter renders one
numbered block per article — all of them, not at most five — numbered
from 1 in input order, and the empty list yields the no-news block. -/
theorem news_formatter_renders_every_article :
    ∀ (nd : NewsResult) (articles : List Article),
      pyTruthy nd.error = false → nd.articles = some articles →
      news_rendering_spec nd articles := by
  intro nd articles herr harts
  constructor
  · intro h
    subst h
    simp [format_news_summary, herr, harts]
  · intro h
    have hne : articles.isEmpty = false := by
      cases articles with
      | nil => exact absurd rfl h
      | cons a rest => rfl
    refine ⟨by simp [format_news_summary, herr, harts, hne], ?_, ?_⟩
    · simpa [news_blocks] using news_blocks_from_length articles 1
    · intro j hj hj2
      have hget := news_blocks_from_get articles 1 j (by simpa [news_blocks] using hj) hj2
      have : (news_blocks articles).get ⟨j, hj⟩ =
          render_article (j + 1) (articles.get ⟨j, hj2⟩) := by
        rw [Nat.add_comm 1 j] at hget
        simpa [news_blocks] using hget
      rw [this]
      exact render_article_beginsWith (j + 1) (articles.get ⟨j, hj2⟩)

/-- Witness for the news rendering property at a one-article result. -/
theorem news_formatter_renders_every_article_witness :
    pyTruthy news_one.error = false ∧ news_one.articles = some one_article ∧
      news_rendering_spec news_one one_article :=
  ⟨rfl, rfl, news_formatter_renders_every_article news_one one_article rfl rfl⟩

set_option maxRecDepth 8000 in
/-- Counterexample to C3 as stated: six error-free articles render six
numbered blocks (one `Source:` line each), not `min 5 6 = 5`. -/
theorem news_formatter_renders_six_of_six :
    countSub "   Source: " (format_news_summary news_six) = 6 ∧
      six_articles.length = 6 ∧ min 5 six_articles.length ≠ 6 :=
  ⟨rfl, rfl, by decide⟩

/-- C1 (amended): for a weather result without a truthy error field whose
current payload is present and on which the formatter raises no
exception, exactly one advisory line is emitted after the road-conditions
header, chosen by the fixed precedence on the lower-cased condition
description — rain/snow first regardless of wind, then fog/mist, then
wind speed above 25, else the normal-conditions line. -/
theorem road_conditions_advisory_precedence :
    ∀ (wd : WeatherResult) (c : CurrentPayload) (out : String),
      pyTruthy wd.error = false → wd.current = some c →
      format_weather_summary wd = Except.ok out →
      advisory_emission wd c out := by
  intro wd c out herr hcur hok
  simp [format_weather_summary, herr, hcur] at hok
  cases hd : getDescription c with
  | error e => simp [hd] at hok
  | ok d =>
    cases ha : road_advisory d (c.wind.bind WindBlock.speed) with
    | error e => simp [hd, ha] at hok
    | ok adv =>
      cases hf : forecast_section wd.forecast with
      | error e => simp [hd, ha, hf] at hok
      | ok fs =>
        simp [hd, ha, hf] at hok
        refine ⟨d, adv, fs, hd, hf, hok.symm, ?_, ?_, ?_⟩
        · intro h1
          simp [road_advisory, h1] at ha
          exact ha.symm
        · intro h1 h2
          simp [road_advisory, h1, h2] at ha
          exact ha.symm
        · intro h1 h2
          simp [road_advisory, h1, h2] at ha
          cases hw : c.wind.bind WindBlock.speed with
          | none => rw [hw] at ha; simp at ha
          | some w =>
            rw [hw] at ha
            simp at ha
            exact ⟨w, rfl, ha.symm⟩

/-- Witness for the advisory precedence on a rain description with a
30 mph wind: the rain branch wins. -/
theorem road_conditions_advisory_precedence_witness :
    pyTruthy wd_c1.error = false ∧ wd_c1.current = some c_c1 ∧
      format_weather_summary wd_c1 = Except.ok out_c1 ∧
      advisory_emission wd_c1 c_c1 out_c1 :=
  ⟨rfl, rfl, rfl, road_conditions_advisory_precedence wd_c1 c_c1 out_c1 rfl rfl rfl⟩

/-- Counterexample to C1 as stated: a present current payload without a
`wind` key and with a keyword-free description makes the formatter raise
`TypeError` instead of emitting an advisory line. -/
theorem advisory_crashes_without_wind_key :
    wd_no_wind.current.isSome = true ∧
      format_weather_summary wd_no_wind =
        Except.error "TypeError: '>' not supported between instances of 'str' and 'int'" :=
  ⟨rfl, rfl⟩

/-- C7 (amended): for an error-free weather result whose current payload
is present and well-formed (condition array non-empty when present, wind
speed present) and whose forecast list holds `n` well-formed entries, the
formatter renders exactly `min 3 n` forecast lines, in list order, each
showing that entry's time of day, temperature and condition. -/
theorem weather_formatter_forecast_lines :
    ∀ (wd : WeatherResult) (c : CurrentPayload) (fd : ForecastDict)
      (items : List ForecastItem) (w : ℚ),
      pyTruthy wd.error = false → wd.current = some c →
      c.weather ≠ some [] → c.wind.bind WindBlock.speed = some w →
      wd.forecast = some fd → fd.list = some items →
      (∀ it ∈ items.take 3, ItemWF it) →
      forecast_rendering_spec wd items := by
  intro wd c fd items w herr hcur hwne hwind hfor hlist hwf
  obtain ⟨lines, hl, hlen, hget⟩ := forecast_lines_ok (items.take 3) hwf
  have hdesc : ∃ d, getDescription c = Except.ok d := by
    cases hcw : c.weather with
    | none => exact ⟨pytitle "N/A", by simp [getDescription, hcw]⟩
    | some ws =>
      cases ws with
      | nil => exact absurd hcw hwne
      | cons e rest =>
        exact ⟨pytitle (e.description.getD "N/A"), by simp [getDescription, hcw]⟩
  obtain ⟨d, hd⟩ := hdesc
  have hadv : ∃ adv, road_advisory d (c.wind.bind WindBlock.speed) = Except.ok adv := by
    by_cases h1 : (pyIn "rain" (pylower d) || pyIn "snow" (pylower d)) = true
    · exact ⟨wet_warning, by simp [road_advisory, h1]⟩
    · have h1f : (pyIn "rain" (pylower d) || pyIn "snow" (pylower d)) = false := by
        simpa using h1
      by_cases h2 : (pyIn "fog" (pylower d) || pyIn "mist" (pylower d)) = true
      · exact ⟨visibility_warning, by simp [road_advisory, h1f, h2]⟩
      · have h2f : (pyIn "fog" (pylower d) || pyIn "mist" (pylower d)) = false := by
          simpa using h2
        exact ⟨if 25 < w then wind_warning else normal_message,
          by simp [road_advisory, h1f, h2f, hwind]⟩
  obtain ⟨adv, hadv⟩ := hadv
  have hfs : forecast_section wd.forecast =
      Except.ok ("📅 TODAY'S FORECAST:\n" ++ String.join lines) := by
    simp [forecast_section, hfor, hlist, hl]
  refine ⟨lines, hl, by simpa [List.length_take] using hlen, hget,
    "🌤️ WEATHER REPORT\n" ++ bar50 ++ "\n\n" ++ current_lines c d ++
      "🚗 ROAD CONDITIONS:\n" ++ adv ++ "\n", ?_⟩
  simp [format_weather_summary, herr, hcur, hd, hadv, hfs, String.append_assoc]

/-- Witness for the forecast rendering on a fully well-formed result with
a two-entry forecast list. -/
theorem weather_formatter_forecast_lines_witness :
    pyTruthy wd_c7.error = false ∧ wd_c7.current = some c_c7 ∧
      c_c7.weather ≠ some [] ∧ c_c7.wind.bind WindBlock.speed = some 5 ∧
      wd_c7.forecast = some { list := some items_c7 } ∧
      ({ list := some items_c7 } : ForecastDict).list = some items_c7 ∧
      (∀ it ∈ items_c7.take 3, ItemWF it) ∧
      forecast_rendering_spec wd_c7 items_c7 := by
  have hwf7 : ∀ it ∈ items_c7.take 3, ItemWF it := by
    intro it hit
    have hcase : it = wf_item ∨ it = wf_item2 := by
      simpa [items_c7] using hit
    rcases hcase with h | h <;> subst h
    · exact ⟨⟨3600, rfl⟩, ⟨{ temp := some 54 }, 54, rfl, rfl⟩,
        ⟨{ description := some "light rain" }, [], "light rain", rfl, rfl⟩⟩
    · exact ⟨⟨14400, rfl⟩, ⟨{ temp := some 57 }, 57, rfl, rfl⟩,
        ⟨{ description := some "scattered clouds" }, [], "scattered clouds", rfl, rfl⟩⟩
  exact ⟨rfl, rfl, by decide, rfl, rfl, rfl, hwf7,
    weather_formatter_forecast_lines wd_c7 c_c7 { list := some items_c7 } items_c7 5
      rfl rfl (by decide) rfl rfl rfl hwf7⟩

/-- Counterexample to C7 as stated: an error-free result with a one-entry
forecast list but no current payload renders the no-data block and zero
forecast lines, not `min 3 1 = 1`. -/
theorem forecast_skipped_without_current :
    wd_forecast_only.error = none ∧
      wd_forecast_only.forecast = some { list := some [wf_item] } ∧
      format_weather_summary wd_forecast_only =
        Except.ok "⚠️ Weather Update:\nNo weather data available\n\n" ∧
      min 3 ([wf_item].length) = 1 ∧
      countSub "°F - " "⚠️ Weather Update:\nNo weather data available\n\n" = 0 :=
  ⟨rfl, rfl, rfl, rfl, rfl⟩

end MorningSummary
